import Mathlib

/-!
Formal model of the TTS client in `src/main.py`: token caching and refresh,
request signing (HMAC-SHA256 over a percent-encoded URL), SSML construction
with XML escaping, the two retry tiers, pooled-session recycling, and
content-type selection in the routing layer.

Machine integers are modelled as `Nat`/`Int` with explicit `% 2 ^ 32` where
the source's arithmetic wraps (inside SHA-256); fallible Python code is
modelled with `Option`/`Except`.
-/

set_option maxRecDepth 10000

namespace Tts

/-! ## Exceptions and the routing layer's handlers (`tts_api`) -/

/-- Exception kinds raised on the code paths modelled here. The first three
are the `requests` network exceptions named in both tenacity decorators;
`httpError` is `requests.HTTPError` from `raise_for_status`; the remaining
kinds arise while parsing the token payload in `get_voice`. -/
inductive PyExc
  | sslError
  | connectionError
  | timeout
  | httpError
  | keyError
  | indexError
  | binasciiError
  | unicodeDecodeError
  | jsonDecodeError
  | typeError
  deriving DecidableEq, Repr

/-- The tenacity retry predicate used on both `get_endpoint` and `get_voice`:
`retry_if_exception_type((SSLError, ConnectionError, Timeout))`. -/
def retriedExc : PyExc → Bool
  | .sslError => true
  | .connectionError => true
  | .timeout => true
  | _ => false

/-- Which family of `except` branch in `tts_api` catches an exception
escaping `get_voice`: `requests.HTTPError` first (the terminal remote
rejection), then `SSLError` / `RequestException` (network failures — both
subclasses are reported with the same network message), then the generic
`Exception` handler. -/
inductive Handler
  | remoteErr
  | netErr
  | internalErr
  deriving DecidableEq, Repr

/-- The handler that catches each exception kind in `tts_api`.
`ConnectionError` and `Timeout` are `RequestException` subclasses. -/
def ttsHandler : PyExc → Handler
  | .httpError => .remoteErr
  | .sslError => .netErr
  | .connectionError => .netErr
  | .timeout => .netErr
  | _ => .internalErr

/-- The HTTP status `tts_api` responds with for each caught exception:
502 for remote/network failures, 500 for the generic handler. -/
def ttsApiStatusOf (e : PyExc) : Nat :=
  match ttsHandler e with
  | .remoteErr => 502
  | .netErr => 502
  | .internalErr => 500

/-! ## Token cache state and freshness (`get_voice`, lines 216–231) -/

/-- The JSON body returned by the token endpoint, as the dict `endpoint`:
fields `t` (compound token) and `r` (region) may each be absent. -/
structure EndpointResp where
  t : Option String
  r : Option String
  deriving DecidableEq, Repr

/-- The integer-expiry view of the module-level mutable globals
`endpoint` and `expired_at`, used for the freshness branch (every
well-formed refresh stores an integer `exp`, the ordinary JWT case).
`RefreshState` further below holds `expired_at` at full fidelity — the
assigned JSON value may be a float, bool, or (in a torn refresh) a
non-numeric value — and is the model the mutation-order analysis uses. -/
structure TtsState where
  endpoint : Option EndpointResp
  expired_at : Option Int
  deriving DecidableEq, Repr

/-- The refresh condition `not expired_at or current_time > expired_at - 60`
of `get_voice`. Python truthiness: `not expired_at` holds when `expired_at`
is `None` and also when it is `0`. -/
def needRefresh (expired_at : Option Int) (now : Int) : Bool :=
  match expired_at with
  | none => true
  | some v => v == 0 || now > v - 60

/-! ## `raise_for_status` and the synthesis response -/

/-- Python `requests.Response.raise_for_status`: raises `HTTPError` exactly for
status codes in 400–599; any other status (including 1xx/3xx) returns
normally. -/
def raiseForStatus (status : Nat) : Option PyExc :=
  if 400 ≤ status ∧ status ≤ 599 then some .httpError else none

/-- Outcome of one synthesis POST that yielded an HTTP response with the
given status: either `HTTPError` from `raise_for_status`, or the body
(`resp.content`). -/
def synthAttempt {α : Type} (status : Nat) (content : α) : Except PyExc α :=
  match raiseForStatus status with
  | some e => .error e
  | none => .ok content

/-! ## The tenacity retry tier (`@retry` on `get_endpoint` / `get_voice`) -/

/-- tenacity's `wait_exponential(multiplier, min=mn, max=mx)`: after failed
attempt number `k` (1-based) the wait is `multiplier * 2 ^ k` clamped into
`[mn, mx]` (seconds). -/
def waitExponential (multiplier mn mx k : Nat) : Nat :=
  max mn (min (multiplier * 2 ^ k) mx)

/-- The wait schedule on `get_voice`: `wait_exponential(multiplier=1, min=2, max=5)`. -/
def waitGetVoice (k : Nat) : Nat := waitExponential 1 2 5 k

/-- The wait schedule on `get_endpoint`: `wait_exponential(multiplier=1, min=1, max=5)`. -/
def waitGetEndpoint (k : Nat) : Nat := waitExponential 1 1 5 k

deriving instance DecidableEq for Except

/-- Result of running a tenacity-decorated call: the final outcome, the
number of the attempt on which the loop stopped, and the waits slept
between attempts. -/
structure RetryResult (α : Type) where
  result : Except PyExc α
  attempts : Nat
  waits : List Nat
  deriving DecidableEq, Repr

/-- One step of the tenacity loop with `stop_after_attempt maxAtt` and
`reraise=True`: attempt `k` draws `out k`; a success returns at once; an
exception outside the retried set is reraised at once; a retried exception
reraises when `k` has reached `maxAtt`, and otherwise sleeps `wait k` and
moves to attempt `k + 1`. `fuel` only drives the recursion and is
initialised to `maxAtt`. -/
def tenacityGo {α : Type} (pred : PyExc → Bool) (wait : Nat → Nat) (maxAtt : Nat)
    (out : Nat → Except PyExc α) : Nat → Nat → RetryResult α
  | k, 0 => ⟨out k, k, []⟩
  | k, fuel + 1 =>
    match out k with
    | .ok v => ⟨.ok v, k, []⟩
    | .error e =>
      if pred e then
        if k < maxAtt then
          let r := tenacityGo pred wait maxAtt out (k + 1) fuel
          ⟨r.result, r.attempts, wait k :: r.waits⟩
        else ⟨.error e, k, []⟩
      else ⟨.error e, k, []⟩

/-- Run a tenacity-decorated call, attempts numbered from 1. -/
def tenacityRun {α : Type} (pred : PyExc → Bool) (wait : Nat → Nat) (maxAtt : Nat)
    (out : Nat → Except PyExc α) : RetryResult α :=
  tenacityGo pred wait maxAtt out 1 maxAtt

/-! ## Session recycling (`SessionManager`) -/

/-- The `SessionManager` fields: an abstract identity for the current
`requests.Session`, its creation instant `_last_created`, and
`_recreate_interval` (600 s at construction). -/
structure SessionState where
  sessionId : Nat
  lastCreated : Int
  recreateInterval : Int
  deriving DecidableEq, Repr

/-- The `session` property: when `now - _last_created > _recreate_interval`
the old session is closed and a fresh one (identity `freshId`) is created
and handed out with `_last_created := now`; otherwise the current session
is handed out unchanged. Returns the new manager state and the identity of
the session handed to the caller. -/
def acquireSession (st : SessionState) (now : Int) (freshId : Nat) :
    SessionState × Nat :=
  if now - st.lastCreated > st.recreateInterval then
    ({ st with sessionId := freshId, lastCreated := now }, freshId)
  else (st, st.sessionId)

/-! ## Content-type selection (`tts_api`, lines 337–346) -/

/-- Constant `DEFAULT_OUTPUT_FORMAT`. -/
def DEFAULT_OUTPUT_FORMAT : String := "audio-16khz-32kbitrate-mono-mp3"

/-- Whether `needle` occurs as a contiguous run somewhere in `hay`. -/
def listContains (needle : List Char) : List Char → Bool
  | [] => needle.isEmpty
  | c :: rest => needle.isPrefixOf (c :: rest) || listContains needle rest

/-- Python's substring test `needle in haystack`. -/
def strContains (haystack needle : String) : Bool :=
  listContains needle.data haystack.data

/-- The `media_type` chosen by `tts_api` from `output_format`:
`"mp3"` → `audio/mpeg`, else `"ogg"` → `audio/ogg`, else `"wav"` →
`audio/wav`, else the generic binary type. -/
def mediaType (output_format : String) : String :=
  if strContains output_format "mp3" then "audio/mpeg"
  else if strContains output_format "ogg" then "audio/ogg"
  else if strContains output_format "wav" then "audio/wav"
  else "application/octet-stream"

/-! ## Bytes, base64 and UTF-8

Bytes are `Nat` values in `0 … 255`. -/

/-- Value of a base64 alphabet character, `none` for anything else. -/
def b64val (c : Char) : Option Nat :=
  if 65 ≤ c.toNat ∧ c.toNat ≤ 90 then some (c.toNat - 65)
  else if 97 ≤ c.toNat ∧ c.toNat ≤ 122 then some (c.toNat - 97 + 26)
  else if 48 ≤ c.toNat ∧ c.toNat ≤ 57 then some (c.toNat - 48 + 52)
  else if c.toNat = 43 then some 62
  else if c.toNat = 47 then some 63
  else none

/-- Bytes held by a final incomplete quad of 2 or 3 sextets (after padding). -/
def b64emitPartial : List Nat → List Nat
  | [v0, v1] => [(v0 <<< 2 ||| v1 >>> 4) % 256]
  | [v0, v1, v2] => [(v0 <<< 2 ||| v1 >>> 4) % 256, ((v1 % 16) <<< 4 ||| v2 >>> 2) % 256]
  | _ => []

/-- Bytes of one complete quad of sextets. -/
def b64emitQuad (v0 v1 v2 v3 : Nat) : List Nat :=
  [(v0 <<< 2 ||| v1 >>> 4) % 256, ((v1 % 16) <<< 4 ||| v2 >>> 2) % 256,
    ((v2 % 4) <<< 6 ||| v3) % 256]

/-- Core loop of `base64.b64decode` (CPython `binascii.a2b_base64` in its
default non-strict mode): characters outside the alphabet are skipped; a
`'='` closing a quad that already has at least two sextets terminates the
decode (emitting the quad's leftover bytes, discarding the rest); a stray
`'='` earlier in a quad is skipped like any invalid character; an
unterminated incomplete quad at the end is a padding error (`none`). -/
def a2bAux : List Char → List Nat → List Nat → Option (List Nat)
  | [], quad, out => if quad.isEmpty then some out else none
  | c :: rest, quad, out =>
    if c.toNat = 61 then
      if 2 ≤ quad.length then some (out ++ b64emitPartial quad)
      else a2bAux rest quad out
    else
      match b64val c with
      | none => a2bAux rest quad out
      | some v =>
        match quad with
        | [v0, v1, v2] => a2bAux rest [] (out ++ b64emitQuad v0 v1 v2 v)
        | _ => a2bAux rest (quad ++ [v]) out

/-- Model of `base64.b64decode` on a string, as used in `sign` (for the fixed key)
and in `get_voice` (for the JWT payload segment). -/
def b64decode (s : String) : Option (List Nat) :=
  a2bAux s.data [] []

/-- The base64 alphabet, for encoding. -/
def b64chars : List Char :=
  "ABCDEFGHIJKLMNOPQRSTUVWXYZabcdefghijklmnopqrstuvwxyz0123456789+/".data

/-- Character of a sextet. -/
def b64char (v : Nat) : Char := b64chars.getD (v % 64) (Char.ofNat 65)

/-- Model of `base64.b64encode(...).decode()`: standard alphabet with `'='` padding. -/
def b64encode : List Nat → List Char
  | [] => []
  | [b0] =>
    [b64char (b0 >>> 2), b64char ((b0 % 4) <<< 4), Char.ofNat 61, Char.ofNat 61]
  | [b0, b1] =>
    [b64char (b0 >>> 2), b64char (((b0 % 4) <<< 4) ||| (b1 >>> 4)),
      b64char ((b1 % 16) <<< 2), Char.ofNat 61]
  | b0 :: b1 :: b2 :: rest =>
    [b64char (b0 >>> 2), b64char (((b0 % 4) <<< 4) ||| (b1 >>> 4)),
      b64char (((b1 % 16) <<< 2) ||| (b2 >>> 6)), b64char (b2 % 64)] ++ b64encode rest

/-- UTF-8 encoding of one character (Python `str.encode('utf-8')`). -/
def utf8EncodeChar (c : Char) : List Nat :=
  let n := c.toNat
  if n < 128 then [n]
  else if n < 2048 then [192 + n / 64, 128 + n % 64]
  else if n < 65536 then [224 + n / 4096, 128 + (n / 64) % 64, 128 + n % 64]
  else [240 + n / 262144, 128 + (n / 4096) % 64, 128 + (n / 64) % 64, 128 + n % 64]

/-- Model of `str.encode('utf-8')` on a whole string. -/
def strUtf8 (s : String) : List Nat :=
  s.data.flatMap utf8EncodeChar

/-- Whether a byte is a UTF-8 continuation byte `10xxxxxx`. -/
def utf8Cont (b : Nat) : Bool := 128 ≤ b ∧ b ≤ 191

/-- Model of `bytes.decode('utf-8')` (fuel-driven; fuel bounds the number of decoded
characters). Rejects stray continuation bytes, overlong forms, surrogate
code points and values beyond U+10FFFF, as CPython does. -/
def utf8DecodeAux : Nat → List Nat → Option (List Char)
  | _, [] => some []
  | 0, _ :: _ => none
  | fuel + 1, b :: rest =>
    if b < 128 then
      (utf8DecodeAux fuel rest).map (fun cs => Char.ofNat b :: cs)
    else if b < 194 then none
    else if b ≤ 223 then
      match rest with
      | b2 :: r2 =>
        if utf8Cont b2 then
          (utf8DecodeAux fuel r2).map (fun cs => Char.ofNat ((b - 192) * 64 + (b2 - 128)) :: cs)
        else none
      | _ => none
    else if b ≤ 239 then
      match rest with
      | b2 :: b3 :: r3 =>
        let lo2 := if b = 224 then 160 else 128
        let hi2 := if b = 237 then 159 else 191
        if (lo2 ≤ b2 ∧ b2 ≤ hi2 : Bool) ∧ utf8Cont b3 then
          (utf8DecodeAux fuel r3).map
            (fun cs => Char.ofNat ((b - 224) * 4096 + (b2 - 128) * 64 + (b3 - 128)) :: cs)
        else none
      | _ => none
    else if b ≤ 244 then
      match rest with
      | b2 :: b3 :: b4 :: r4 =>
        let lo2 := if b = 240 then 144 else 128
        let hi2 := if b = 244 then 143 else 191
        if (lo2 ≤ b2 ∧ b2 ≤ hi2 : Bool) ∧ utf8Cont b3 ∧ utf8Cont b4 then
          (utf8DecodeAux fuel r4).map
            (fun cs => Char.ofNat
              ((b - 240) * 262144 + (b2 - 128) * 4096 + (b3 - 128) * 64 + (b4 - 128)) :: cs)
        else none
      | _ => none
    else none

/-- Model of `bytes.decode('utf-8')`. -/
def utf8Decode (bs : List Nat) : Option (List Char) :=
  utf8DecodeAux bs.length bs

/-! ## Python `str.split(sep)` -/

/-- Fuel-driven splitter: splits `l` at the leftmost, non-overlapping
occurrences of the (nonempty) separator, like Python's `str.split(sep)`.
`acc` holds the current piece reversed; the fuel (initialised beyond the
input length) only drives the recursion. -/
def splitFuel (sep : List Char) : Nat → List Char → List Char → List (List Char)
  | 0, l, acc => [acc.reverse ++ l]
  | fuel + 1, l, acc =>
    match l with
    | [] => [acc.reverse]
    | c :: rest =>
      if sep.isPrefixOf (c :: rest) then
        acc.reverse :: splitFuel sep fuel ((c :: rest).drop sep.length) []
      else splitFuel sep fuel rest (c :: acc)

/-- Python `s.split(sep)` for a nonempty separator. -/
def pySplit (s sep : String) : List String :=
  (splitFuel sep.data (s.data.length + 1) s.data []).map fun l => ⟨l⟩

/-- Join with a separator (used only by the spec-side `afterScheme`). -/
def joinSep (sep : String) : List String → String
  | [] => ""
  | [x] => x
  | x :: y :: rest => x ++ sep ++ joinSep sep (y :: rest)

/-! ## SHA-256 and HMAC-SHA256 (`hashlib.sha256`, `hmac.new`)

Words are `Nat` values reduced modulo `2 ^ 32`. The round constants and
initial hash words are derived, as in the FIPS 180-4 definition, from the
fractional parts of the cube roots (resp. square roots) of the first
primes, via exact integer root extraction. -/

/-- The constant `2 ^ 32`. -/
def w32 : Nat := 4294967296

/-- Right rotation of a 32-bit word. -/
def rotr32 (n x : Nat) : Nat := ((x >>> n) ||| (x <<< (32 - n))) % w32

/-- Message-schedule sigma-0: `rotr 7 ^ rotr 18 ^ shr 3`. -/
def smallSigma0 (x : Nat) : Nat :=
  Nat.xor (Nat.xor (rotr32 7 x) (rotr32 18 x)) (x >>> 3)

/-- Message-schedule sigma-1: `rotr 17 ^ rotr 19 ^ shr 10`. -/
def smallSigma1 (x : Nat) : Nat :=
  Nat.xor (Nat.xor (rotr32 17 x) (rotr32 19 x)) (x >>> 10)

/-- Compression Sigma-0: `rotr 2 ^ rotr 13 ^ rotr 22`. -/
def bigSigma0 (x : Nat) : Nat :=
  Nat.xor (Nat.xor (rotr32 2 x) (rotr32 13 x)) (rotr32 22 x)

/-- Compression Sigma-1: `rotr 6 ^ rotr 11 ^ rotr 25`. -/
def bigSigma1 (x : Nat) : Nat :=
  Nat.xor (Nat.xor (rotr32 6 x) (rotr32 11 x)) (rotr32 25 x)

/-- The first 64 primes, whose roots yield the SHA-256 constants. -/
def first64Primes : List Nat :=
  [2, 3, 5, 7, 11, 13, 17, 19, 23, 29, 31, 37, 41, 43, 47, 53, 59, 61, 67,
    71, 73, 79, 83, 89, 97, 101, 103, 107, 109, 113, 127, 131, 137, 139,
    149, 151, 157, 163, 167, 173, 179, 181, 191, 193, 197, 199, 211, 223,
    227, 229, 233, 239, 241, 251, 257, 263, 269, 271, 277, 281, 283, 293,
    307, 311]

/-- Binary search for the integer cube root (invariant `lo ^ 3 ≤ n < hi ^ 3`). -/
def natCbrtAux : Nat → Nat → Nat → Nat → Nat
  | 0, lo, _, _ => lo
  | fuel + 1, lo, hi, n =>
    if hi ≤ lo + 1 then lo
    else
      let mid := (lo + hi) / 2
      if mid * mid * mid ≤ n then natCbrtAux fuel mid hi n
      else natCbrtAux fuel lo mid n

/-- Floor of the cube root (adequate up to `2 ^ 120`). -/
def natCbrt (n : Nat) : Nat := natCbrtAux 64 0 1099511627776 n

/-- Binary search for the integer square root (invariant `lo ^ 2 ≤ n < hi ^ 2`). -/
def natSqrtAux : Nat → Nat → Nat → Nat → Nat
  | 0, lo, _, _ => lo
  | fuel + 1, lo, hi, n =>
    if hi ≤ lo + 1 then lo
    else
      let mid := (lo + hi) / 2
      if mid * mid ≤ n then natSqrtAux fuel mid hi n
      else natSqrtAux fuel lo mid n

/-- Floor of the square root (adequate up to `2 ^ 80`). -/
def natSqrt (n : Nat) : Nat := natSqrtAux 64 0 1099511627776 n

/-- Round constants: the first 32 bits of the fractional parts of the cube
roots of the first 64 primes. -/
def shaK : List Nat := first64Primes.map fun p => natCbrt (p <<< 96) % w32

/-- Initial hash words: the first 32 bits of the fractional parts of the
square roots of the first 8 primes. -/
def shaH0 : List Nat := (first64Primes.take 8).map fun p => natSqrt (p <<< 64) % w32

/-- Big-endian bytes of a 64-bit length field. -/
def be64 (n : Nat) : List Nat :=
  [(n >>> 56) % 256, (n >>> 48) % 256, (n >>> 40) % 256, (n >>> 32) % 256,
    (n >>> 24) % 256, (n >>> 16) % 256, (n >>> 8) % 256, n % 256]

/-- SHA-256 padding: `0x80`, zeros to 56 mod 64, then the bit length. -/
def shaPad (msg : List Nat) : List Nat :=
  msg ++ [128] ++ List.replicate ((64 - (msg.length + 9) % 64) % 64) 0 ++
    be64 (8 * msg.length)

/-- Group a 64-byte chunk into sixteen big-endian 32-bit words. -/
def toWords : List Nat → List Nat
  | b0 :: b1 :: b2 :: b3 :: rest =>
    ((b0 <<< 24) ||| (b1 <<< 16) ||| (b2 <<< 8) ||| b3) :: toWords rest
  | _ => []

/-- Case split on a `Nat` whose only purpose is to drive it to a literal
before the continuation runs (keeps evaluation depth bounded). -/
def natCase {α : Type} (n : Nat) (f : Nat → α) : α :=
  match n with
  | 0 => f 0
  | m + 1 => f (m + 1)

theorem natCase_eq {α : Type} (n : Nat) (f : Nat → α) : natCase n f = f n := by
  cases n <;> rfl

/-- The 32-bit word at position `idx` (counted from the low end) of a
packed sequence of words. -/
def w32at (packed idx : Nat) : Nat := (packed >>> (32 * idx)) % w32

/-- Pack a word list into a single `Nat`, first word at the top. -/
def packWords (ws : List Nat) : Nat := ws.foldl (fun a w => a * w32 + w) 0

/-- Extend the packed 16-word schedule by the remaining 48 words: the new
word is `w[i-16] + σ0 w[i-15] + w[i-7] + σ1 w[i-2]` (positions 15, 14, 6
and 1 from the low end of the packed words). -/
def schedExtend : Nat → Nat → Nat
  | 0, packed => packed
  | n + 1, packed => natCase packed fun p =>
    schedExtend n (p * w32 +
      (w32at p 15 + smallSigma0 (w32at p 14) + w32at p 6 + smallSigma1 (w32at p 1)) % w32)

/-- The round constants packed into one `Nat` (round 0 at the top). -/
def shaKN : Nat := packWords shaK

/-- The initial state packed into one `Nat` (`a` at the top … `h` at the
bottom). -/
def shaH0N : Nat := packWords shaH0

/-- The compression rounds, on the packed state. With `n + 1` rounds left
the current round index is `63 - n`, so its round constant and schedule
word sit at position `n` from the low end. -/
def roundsGo (schedP kP : Nat) : Nat → Nat → Nat
  | 0, st => st
  | n + 1, st => natCase st fun s =>
    let a := w32at s 7
    let b := w32at s 6
    let c := w32at s 5
    let e := w32at s 3
    let f := w32at s 2
    let g := w32at s 1
    let t1 := (w32at s 0 + bigSigma1 e +
      Nat.xor (Nat.land e f) (Nat.land (Nat.xor e 4294967295) g) +
      w32at kP n + w32at schedP n) % w32
    let t2 := (bigSigma0 a +
      Nat.xor (Nat.xor (Nat.land a b) (Nat.land a c)) (Nat.land b c)) % w32
    roundsGo schedP kP n
      ((((t1 + t2) % w32) <<< 224) + (a <<< 192) + (b <<< 160) + (c <<< 128) +
        (((w32at s 4 + t1) % w32) <<< 96) + (e <<< 64) + (f <<< 32) + g)

/-- Process one 64-byte chunk on the packed state: 64 compression rounds,
then word-wise addition of the previous state. -/
def processChunkN (hsN : Nat) (chunk : List Nat) : Nat :=
  natCase (roundsGo (schedExtend 48 (packWords (toWords chunk))) shaKN 64 hsN) fun st =>
    (((w32at hsN 7 + w32at st 7) % w32) <<< 224) + (((w32at hsN 6 + w32at st 6) % w32) <<< 192) +
    (((w32at hsN 5 + w32at st 5) % w32) <<< 160) + (((w32at hsN 4 + w32at st 4) % w32) <<< 128) +
    (((w32at hsN 3 + w32at st 3) % w32) <<< 96) + (((w32at hsN 2 + w32at st 2) % w32) <<< 64) +
    (((w32at hsN 1 + w32at st 1) % w32) <<< 32) + ((w32at hsN 0 + w32at st 0) % w32)

/-- Fold the chunks through the compression function, forcing the running
state at each step. -/
def processChunks : List (List Nat) → Nat → Nat
  | [], h => h
  | c :: rest, h => natCase (processChunkN h c) (processChunks rest)

/-- Split a padded message into 64-byte chunks (fuel bounds the count). -/
def chunksOf64 : Nat → List Nat → List (List Nat)
  | 0, _ => []
  | fuel + 1, l => if l.isEmpty then [] else l.take 64 :: chunksOf64 fuel (l.drop 64)

/-- The 32 big-endian bytes of a packed 256-bit digest. -/
def digestBytes (v : Nat) : List Nat :=
  (List.range 32).map fun i => (v >>> (8 * (31 - i))) % 256

/-- Model of `hashlib.sha256(msg).digest()` as a list of bytes. -/
def sha256 (msg : List Nat) : List Nat :=
  digestBytes (processChunks (chunksOf64 (msg.length / 64 + 2) (shaPad msg)) shaH0N)

/-- Model of `hmac.new(key, msg, hashlib.sha256).digest()`: block size 64; a key
longer than the block is first hashed, then zero-padded to the block. -/
def hmacSha256 (key msg : List Nat) : List Nat :=
  let k0 := if 64 < key.length then sha256 key else key
  let kp := k0 ++ List.replicate (64 - k0.length) 0
  sha256 ((kp.map fun b => Nat.xor b 92) ++ sha256 ((kp.map fun b => Nat.xor b 54) ++ msg))

/-! ## The signer (`sign`, lines 120–133) -/

/-- Uppercase hexadecimal digit. -/
def hexUpper (n : Nat) : Char := "0123456789ABCDEF".data.getD (n % 16) (Char.ofNat 48)

/-- Characters `urllib.parse.quote` never encodes: ASCII letters, digits
and `_ . - ~` (here with `safe=''`, so nothing else is exempt). -/
def quoteUnreserved (c : Char) : Bool :=
  (65 ≤ c.toNat ∧ c.toNat ≤ 90) ∨ (97 ≤ c.toNat ∧ c.toNat ≤ 122) ∨
    (48 ≤ c.toNat ∧ c.toNat ≤ 57) ∨ c = Char.ofNat 95 ∨ c = Char.ofNat 46 ∨
    c = Char.ofNat 45 ∨ c = Char.ofNat 126

/-- Percent-encoding of one byte, uppercase hex. -/
def pctByte (b : Nat) : List Char := [Char.ofNat 37, hexUpper (b / 16), hexUpper (b % 16)]

/-- Model of `urllib.parse.quote(u, safe='')`: unreserved characters pass through,
every other character is percent-encoded byte-by-byte in UTF-8. -/
def pyQuote (u : String) : String :=
  ⟨u.data.flatMap fun c =>
    if quoteUnreserved c then [c] else (utf8EncodeChar c).flatMap pctByte⟩

/-- Python `str.lower()` (ASCII range; all strings in the signing path are
ASCII once percent-encoded). -/
def lowerStr (s : String) : String := ⟨s.data.map Char.toLower⟩

/-- Constant `VOICE_DECODE_KEY`. -/
def VOICE_DECODE_KEY : String :=
  "oik6PdDdMnOXemTbwvMn9de/h9lFnfBaCWbGMMZqqoSaQaqUOqjVGm5NqsmjcBI1x+sS9ugjB55HEJWRiFXYFw=="

/-- Constant `ENDPOINT_URL`. -/
def ENDPOINT_URL : String :=
  "https://dev.microsofttranslator.com/apps/endpoint?api-version=1.0"

/-- The HMAC key: `base64.b64decode(VOICE_DECODE_KEY)` (a fixed, valid
base64 constant, so the decode always succeeds). -/
def signKey : List Nat := (b64decode VOICE_DECODE_KEY).getD []

/-- The function `sign(url_str)`, with the two per-call ephemerals (the dash-stripped
nonce and the lowercased formatted date) passed explicitly. Mirrors the
source: `u = url_str.split("://")[1]` (a Python `IndexError`, modelled as
`none`, when the URL has no `"://"`); percent-encode `u` with no safe
characters; HMAC-SHA256 the lowercased UTF-8 concatenation under the
decoded fixed key; and assemble the four `::`-separated fields. -/
def sign (url_str nonce date : String) : Option String :=
  match (pySplit url_str "://").get? 1 with
  | none => none
  | some u =>
    let bytesToSign := strUtf8 (lowerStr ("MSTranslatorAndroidApp" ++ pyQuote u ++ date ++ nonce))
    some ("MSTranslatorAndroidApp::" ++ ⟨b64encode (hmacSha256 signKey bytesToSign)⟩ ++
      "::" ++ date ++ "::" ++ nonce)

/-- Modelled from the spec sentence of C3: "the URL with its scheme and
`://` removed" — everything after the first `://`. -/
def afterScheme (u : String) : String :=
  joinSep "://" ((pySplit u "://").drop 1)

/-- Modelled from the spec: the output shape claimed for the signer —
`"<app-id>::<base64-mac>::<date>::<nonce>"` with the MAC computed by
HMAC-SHA256 under the base64-decoded fixed key over the UTF-8 encoding of
the lowercased concatenation of the app identifier, the percent-encoding
(no safe characters) of the URL with its scheme and `://` removed, the
date and the nonce. -/
def specSign (url_str nonce date : String) : String :=
  let mac := hmacSha256 signKey
    (strUtf8 (lowerStr ("MSTranslatorAndroidApp" ++ pyQuote (afterScheme url_str) ++ date ++ nonce)))
  "MSTranslatorAndroidApp::" ++ ⟨b64encode mac⟩ ++ "::" ++ date ++ "::" ++ nonce

/-! ## JSON (`json.loads`)

A model of `json.loads` over the grammar exercised by the token path:
null, booleans, integer numbers, strings with escapes, arrays and objects.
(Fractional/exponent numerals, which the token payload never contains, are
outside the model and rejected.) -/

/-- A parsed JSON value, keeping Python's `int`/`float` distinction: an
integer numeral becomes `jNum`; a numeral with a fraction or exponent
becomes `jFlt m e`, the exact decimal `m * 10 ^ e` it denotes (the IEEE
rounding `float()` then applies is outside the model — no theorem here
compares float values); the non-standard `NaN` / `Infinity` / `-Infinity`
constants, accepted by `json.loads` by default, become `jNaN` / `jInf`. -/
inductive JVal
  | jNull
  | jBool (b : Bool)
  | jNum (n : Int)
  | jFlt (m : Int) (e : Int)
  | jNaN
  | jInf (neg : Bool)
  | jStr (s : String)
  | jArr (elems : List JVal)
  | jObj (fields : List (String × JVal))

/-- JSON whitespace. -/
def jsonWs (c : Char) : Bool :=
  c.toNat = 32 || c.toNat = 9 || c.toNat = 10 || c.toNat = 13

/-- Drop leading JSON whitespace. -/
def dropWs : List Char → List Char
  | [] => []
  | c :: r => if jsonWs c then dropWs r else c :: r

/-- ASCII decimal digit? -/
def isDigitCh (c : Char) : Bool := 48 ≤ c.toNat ∧ c.toNat ≤ 57

/-- Take the maximal run of digits. -/
def grabDigits : List Char → List Char × List Char
  | [] => ([], [])
  | c :: r =>
    if isDigitCh c then
      let (ds, rest) := grabDigits r
      (c :: ds, rest)
    else ([], c :: r)

/-- Numeric value of a digit run. -/
def digitsToNat (ds : List Char) : Nat :=
  ds.foldl (fun a c => a * 10 + (c.toNat - 48)) 0

/-- Hex digit value. -/
def hexDigitVal (c : Char) : Option Nat :=
  if 48 ≤ c.toNat ∧ c.toNat ≤ 57 then some (c.toNat - 48)
  else if 97 ≤ c.toNat ∧ c.toNat ≤ 102 then some (c.toNat - 87)
  else if 65 ≤ c.toNat ∧ c.toNat ≤ 70 then some (c.toNat - 55)
  else none

/-- Single-character JSON escapes (`\"`, `\\`, `\/`, `\b`, `\f`, `\n`,
`\r`, `\t`), keyed by the character after the backslash. -/
def jEscChar (e : Char) : Option Char :=
  if e.toNat = 34 then some (Char.ofNat 34)
  else if e.toNat = 92 then some (Char.ofNat 92)
  else if e.toNat = 47 then some (Char.ofNat 47)
  else if e.toNat = 98 then some (Char.ofNat 8)
  else if e.toNat = 102 then some (Char.ofNat 12)
  else if e.toNat = 110 then some (Char.ofNat 10)
  else if e.toNat = 114 then some (Char.ofNat 13)
  else if e.toNat = 116 then some (Char.ofNat 9)
  else none

/-- Scan a JSON string body after the opening quote; rejects raw control
characters and bad escapes, as `json.loads` does in strict mode. -/
def jStrRun : Nat → List Char → List Char → Option (String × List Char)
  | 0, _, _ => none
  | fuel + 1, acc, cs =>
    match cs with
    | [] => none
    | c :: r =>
      if c.toNat = 34 then some (⟨acc.reverse⟩, r)
      else if c.toNat = 92 then
        match r with
        | [] => none
        | e :: r2 =>
          if e.toNat = 117 then
            match r2 with
            | h1 :: h2 :: h3 :: h4 :: r3 =>
              match hexDigitVal h1, hexDigitVal h2, hexDigitVal h3, hexDigitVal h4 with
              | some v1, some v2, some v3, some v4 =>
                jStrRun fuel (Char.ofNat (((v1 * 16 + v2) * 16 + v3) * 16 + v4) :: acc) r3
              | _, _, _, _ => none
            | _ => none
          else
            match jEscChar e with
            | some ch => jStrRun fuel (ch :: acc) r2
            | none => none
      else if c.toNat < 32 then none
      else jStrRun fuel (c :: acc) r

/-- Assemble a parsed numeral from its parts: digits of the integer and
fraction parts, the exponent, and whether a fraction or exponent was
present (then the numeral is a Python `float`, else an `int`). -/
def jNumAssemble (neg : Bool) (intDs fracDs : List Char) (expNeg : Bool)
    (expDs : List Char) (isFloat : Bool) : JVal :=
  let mAbs : Int := Int.ofNat (digitsToNat (intDs ++ fracDs))
  let m : Int := if neg then -mAbs else mAbs
  let eAbs : Int := Int.ofNat (digitsToNat expDs)
  let e : Int := (if expNeg then -eAbs else eAbs) - Int.ofNat fracDs.length
  if isFloat then .jFlt m e else .jNum m

/-- Parse the optional exponent part `([eE][+-]?digits)?` of a numeral:
returns its sign, digits, presence, and the rest (`none` on a dangling
`e`). -/
def jExpPart (cs : List Char) : Option (Bool × List Char × Bool × List Char) :=
  match cs with
  | c :: r =>
    if c.toNat = 101 ∨ c.toNat = 69 then
      let (en, r1) : Bool × List Char :=
        match r with
        | s :: r2 =>
          if s.toNat = 43 then (false, r2)
          else if s.toNat = 45 then (true, r2)
          else (false, r)
        | [] => (false, r)
      match grabDigits r1 with
      | ([], _) => none
      | (es, r3) => some (en, es, true, r3)
    else some (false, [], false, cs)
  | [] => some (false, [], false, cs)

/-- Parse a JSON numeral, the grammar of `json.loads`: optional minus, an
integer part with no superfluous leading zero, an optional fraction
(requiring at least one digit) and an optional exponent (ditto); with a
fraction or exponent present the result denotes a Python `float`,
otherwise an `int`. -/
def jNumParse (cs : List Char) : Option (JVal × List Char) :=
  let (neg, cs1) : Bool × List Char :=
    match cs with
    | c :: r => if c.toNat = 45 then (true, r) else (false, cs)
    | [] => (false, cs)
  match grabDigits cs1 with
  | ([], _) => none
  | (d :: ds, rest) =>
    if d.toNat = 48 ∧ ¬ds.isEmpty then none
    else
      let fracRes : Option (List Char × Bool × List Char) :=
        match rest with
        | c :: r =>
          if c.toNat = 46 then
            match grabDigits r with
            | ([], _) => none
            | (fs, r2) => some (fs, true, r2)
          else some ([], false, rest)
        | [] => some ([], false, rest)
      match fracRes with
      | none => none
      | some (fs, hasFrac, rest2) =>
        match jExpPart rest2 with
        | none => none
        | some (en, es, hasExp, rest3) =>
          some (jNumAssemble neg (d :: ds) fs en es (hasFrac || hasExp), rest3)

/-- One level of the JSON parser: the value parser, the array-tail parser
(after a non-`]` first element starts) and the object-tail parser, each
built from the parsers one fuel level down. -/
def jParseLevel : Nat →
    (List Char → Option (JVal × List Char)) ×
    (List Char → Option (List JVal × List Char)) ×
    (List Char → Option (List (String × JVal) × List Char))
  | 0 => (fun _ => none, fun _ => none, fun _ => none)
  | fuel + 1 =>
    let pVal := (jParseLevel fuel).1
    let pElems := (jParseLevel fuel).2.1
    let pFields := (jParseLevel fuel).2.2
    (fun cs =>
      match dropWs cs with
      | 'n' :: 'u' :: 'l' :: 'l' :: r => some (.jNull, r)
      | 't' :: 'r' :: 'u' :: 'e' :: r => some (.jBool true, r)
      | 'f' :: 'a' :: 'l' :: 's' :: 'e' :: r => some (.jBool false, r)
      | 'N' :: 'a' :: 'N' :: r => some (.jNaN, r)
      | 'I' :: 'n' :: 'f' :: 'i' :: 'n' :: 'i' :: 't' :: 'y' :: r => some (.jInf false, r)
      | '-' :: 'I' :: 'n' :: 'f' :: 'i' :: 'n' :: 'i' :: 't' :: 'y' :: r =>
        some (.jInf true, r)
      | c :: r =>
        if c.toNat = 34 then
          match jStrRun (r.length + 1) [] r with
          | some (s, r2) => some (.jStr s, r2)
          | none => none
        else if c.toNat = 91 then
          match dropWs r with
          | d :: r2 =>
            if d.toNat = 93 then some (.jArr [], r2)
            else
              match pElems (d :: r2) with
              | some (es, r3) => some (.jArr es, r3)
              | none => none
          | [] => none
        else if c.toNat = 123 then
          match dropWs r with
          | d :: r2 =>
            if d.toNat = 125 then some (.jObj [], r2)
            else
              match pFields (d :: r2) with
              | some (fs, r3) => some (.jObj fs, r3)
              | none => none
          | [] => none
        else
          match jNumParse (c :: r) with
          | some (v, r2) => some (v, r2)
          | none => none
      | [] => none,
    fun cs =>
      match pVal cs with
      | some (v, r) =>
        (match dropWs r with
        | c :: r2 =>
          if c.toNat = 44 then
            match pElems r2 with
            | some (vs, r3) => some (v :: vs, r3)
            | none => none
          else if c.toNat = 93 then some ([v], r2)
          else none
        | [] => none)
      | none => none,
    fun cs =>
      match dropWs cs with
      | c :: r =>
        if c.toNat = 34 then
          match jStrRun (r.length + 1) [] r with
          | some (k, r1) =>
            (match dropWs r1 with
            | d :: r2 =>
              if d.toNat = 58 then
                match pVal r2 with
                | some (v, r3) =>
                  (match dropWs r3 with
                  | e :: r4 =>
                    if e.toNat = 44 then
                      match pFields r4 with
                      | some (fs, r5) => some ((k, v) :: fs, r5)
                      | none => none
                    else if e.toNat = 125 then some ([(k, v)], r4)
                    else none
                  | [] => none)
                | none => none
              else none
            | [] => none)
          | none => none
        else none
      | [] => none)

/-- Model of `json.loads` (on the modelled grammar): parse one value and require
only whitespace after it. -/
def jsonLoads (s : String) : Option JVal :=
  match (jParseLevel (2 * s.data.length + 4)).1 s.data with
  | some (v, rest) => if (dropWs rest).isEmpty then some v else none
  | none => none

/-- Indexing a parsed JSON dict, `decoded_jwt['exp']`: Python keeps the
last occurrence of a duplicated key. -/
def objGet (fields : List (String × JVal)) (k : String) : Option JVal :=
  (fields.reverse.find? fun kv => kv.1 == k).map fun kv => kv.2

/-! ## The token parse chain and credential replacement
(`get_voice`, lines 220–228) -/

/-- The value `decoded_jwt['exp']` computed inside `get_voice` after
`get_endpoint` returns — the right-hand side of the `expired_at`
assignment: `endpoint['t']` (a `KeyError` when absent), the middle
dot-separated segment (`IndexError` when there is no second segment),
base64 with restored padding (`binascii.Error`), UTF-8
(`UnicodeDecodeError`), `json.loads` (`JSONDecodeError`), then `['exp']`
(`KeyError` when the key is absent, `TypeError` when the payload is not
an object). The value itself may be any JSON value — Python assigns it to
`expired_at` unconditionally. -/
def lookupExp (resp : EndpointResp) : Except PyExc JVal :=
  match resp.t with
  | none => .error .keyError
  | some t =>
    match (pySplit t ".").get? 1 with
    | none => .error .indexError
    | some jwt =>
      match b64decode (jwt ++ ⟨List.replicate ((4 - jwt.data.length % 4) % 4) (Char.ofNat 61)⟩) with
      | none => .error .binasciiError
      | some bytes =>
        match utf8Decode bytes with
        | none => .error .unicodeDecodeError
        | some chars =>
          match jsonLoads ⟨chars⟩ with
          | none => .error .jsonDecodeError
          | some (.jObj fields) =>
            (match objGet fields "exp" with
            | some v => .ok v
            | none => .error .keyError)
          | some _ => .error .typeError

/-- Whether the subtraction `seconds_left = expired_at - current_time` on
the line after the assignment succeeds for this `exp` value: Python
subtracts ints, floats (including `nan`/`inf`) and bools from an int, and
raises `TypeError` for strings, `None`, lists and dicts. -/
def subtractOk : JVal → Bool
  | .jNum _ => true
  | .jFlt _ _ => true
  | .jBool _ => true
  | .jNaN => true
  | .jInf _ => true
  | .jStr _ => false
  | .jNull => false
  | .jArr _ => false
  | .jObj _ => false

/-- The full parse outcome of the token payload inside `get_voice`: the
`['exp']` lookup, then the subtraction on the next line; its `.ok` value
is the (possibly non-integer) number `expired_at` now holds. An integer
`exp` is the well-formed case; a float or bool `exp` also succeeds, as it
does in Python. -/
def parseExp (resp : EndpointResp) : Except PyExc JVal :=
  match lookupExp resp with
  | .error e => .error e
  | .ok v => if subtractOk v then .ok v else .error .typeError

/-- The globals `endpoint` and `expired_at` with `expired_at` at full
fidelity: the assigned `exp` may be any JSON value, not only an integer
(`TtsState` is its integer-expiry view, used for the freshness branch). -/
structure RefreshState where
  endpoint : Option EndpointResp
  expired_at : Option JVal

/-- The refresh assignments of `get_voice`, in source order: `endpoint`
is assigned the fetched response first; if the payload parse fails before
the `['exp']` lookup completes, `expired_at` keeps its previous value and
the exception propagates; if the lookup yields a value, `expired_at` is
assigned that value unconditionally — and when the value is not a number
or bool, the subtraction on the next line then raises `TypeError`,
leaving `expired_at` overwritten with the non-numeric value. -/
def applyRefresh (st : RefreshState) (resp : EndpointResp) :
    RefreshState × Except PyExc Unit :=
  let st1 : RefreshState := { st with endpoint := some resp }
  match lookupExp resp with
  | .error ex => (st1, .error ex)
  | .ok v =>
    let st2 : RefreshState := { st1 with expired_at := some v }
    if subtractOk v then (st2, .ok ()) else (st2, .error .typeError)

/-- A refresh including the `get_endpoint` call itself: when the fetch
raises, no global is touched; when it returns a response, the assignments
of `applyRefresh` run. -/
def refreshFlow (st : RefreshState) (fetch : Except PyExc EndpointResp) :
    RefreshState × Except PyExc Unit :=
  match fetch with
  | .error e => (st, .error e)
  | .ok resp => applyRefresh st resp

/-- The integer-expiry projection of a full-fidelity expiry: the value of
the `expired_at` global when it is an integer, `none` otherwise (the
coarse `TtsState` cannot represent a float/bool/torn non-numeric expiry;
only the refresh branch of the freshness step, which no freshness claim
constrains, passes through this projection). -/
def tokenView : Option JVal → Option Int
  | some (.jNum n) => some n
  | _ => none

/-- The token-handling head of `get_voice`: when the cached expiry is
fresh the state is untouched and no token-endpoint request is made (the
middle component is `false`); otherwise the refresh runs against `fetch`
on the full-fidelity state and the result is projected back to the
integer-expiry view. -/
def getVoiceTokenStep (st : TtsState) (now : Int) (fetch : Except PyExc EndpointResp) :
    TtsState × Bool × Except PyExc Unit :=
  if needRefresh st.expired_at now then
    let r := refreshFlow ⟨st.endpoint, st.expired_at.map .jNum⟩ fetch
    (⟨r.1.endpoint, tokenView r.1.expired_at⟩, true, r.2)
  else (st, false, .ok ())

/-! ## SSML construction (`get_ssml`, lines 136–149) -/

/-- Model of `html.escape(text)` on one character (`quote=True`, the default): `&`,
`<`, `>`, `"` and the apostrophe become entities, everything else passes
through. -/
def escChar (c : Char) : List Char :=
  if c = Char.ofNat 38 then "&amp;".data
  else if c = Char.ofNat 60 then "&lt;".data
  else if c = Char.ofNat 62 then "&gt;".data
  else if c = Char.ofNat 34 then "&quot;".data
  else if c = Char.ofNat 39 then "&#x27;".data
  else [c]

/-- Model of `html.escape` over a character list. -/
def escList (s : List Char) : List Char := s.flatMap escChar

/-- The `safe_text` of `get_ssml`: `html.escape(text)`. -/
def htmlEscape (s : String) : String := ⟨escList s.data⟩

/-- The fixed document text before the `voice_name` interpolation (after
the Python `.strip()` removed the surrounding newlines). -/
def ssmlPart0 : String :=
  "<speak xmlns=\"http://www.w3.org/2001/10/synthesis\" xmlns:mstts=\"http://www.w3.org/2001/mstts\" version=\"1.0\" xml:lang=\"zh-CN\">\n  <voice name=\""

/-- Between `voice_name` and `style`. -/
def ssmlPart1 : String := "\">\n    <mstts:express-as style=\""

/-- Between `style` and `rate`. -/
def ssmlPart2 : String := "\" styledegree=\"1.0\" role=\"default\">\n      <prosody rate=\""

/-- Between `rate` and `pitch`. -/
def ssmlPart3 : String := "%\" pitch=\""

/-- Between `pitch` and the escaped text node. -/
def ssmlPart4 : String := "%\">\n        "

/-- The closing markup after the text node. -/
def ssmlPart5 : String :=
  "\n      </prosody>\n    </mstts:express-as>\n  </voice>\n</speak>"

/-- The function `get_ssml(text, voice_name, rate, pitch, style)`: the f-string document
with `html.escape` applied to `text` only; `voice_name`, `style`, `rate`
and `pitch` are interpolated verbatim (the latter two suffixed `%`). -/
def get_ssml (text voice_name rate pitch style : String) : String :=
  ssmlPart0 ++ voice_name ++ ssmlPart1 ++ style ++ ssmlPart2 ++ rate ++
    ssmlPart3 ++ pitch ++ ssmlPart4 ++ htmlEscape text ++ ssmlPart5

/-- Does the list start with the tail of one of the five entities
`html.escape` produces (the part after `&`)? -/
def entTail (l : List Char) : Bool :=
  "amp;".data.isPrefixOf l || "lt;".data.isPrefixOf l || "gt;".data.isPrefixOf l ||
    "quot;".data.isPrefixOf l || "#x27;".data.isPrefixOf l

/-- Scanner for unescaped XML-special characters in a text node: a raw `<`
or `"` anywhere, or a `&` that does not begin one of `html.escape`'s
entities, makes the scan fail. -/
def noUnescaped : List Char → Bool
  | [] => true
  | c :: rest =>
    if c = Char.ofNat 60 then false
    else if c = Char.ofNat 34 then false
    else if c = Char.ofNat 38 then entTail rest && noUnescaped rest
    else noUnescaped rest

/-! ## Helper lemmas -/

theorem escChar_scan (c : Char) (rest : List Char) :
    noUnescaped (escChar c ++ rest) = noUnescaped rest := by
  by_cases h38 : c = Char.ofNat 38
  · subst h38; simp [escChar, noUnescaped, entTail, List.isPrefixOf]
  · by_cases h60 : c = Char.ofNat 60
    · subst h60; simp [escChar, noUnescaped, entTail, List.isPrefixOf]
    · by_cases h62 : c = Char.ofNat 62
      · subst h62; simp [escChar, noUnescaped, entTail, List.isPrefixOf]
      · by_cases h34 : c = Char.ofNat 34
        · subst h34; simp [escChar, noUnescaped, entTail, List.isPrefixOf]
        · by_cases h39 : c = Char.ofNat 39
          · subst h39; simp [escChar, noUnescaped, entTail, List.isPrefixOf]
          · simp [escChar, h38, h60, h62, h34, h39, noUnescaped]

theorem noUnescaped_escList (s : List Char) : noUnescaped (escList s) = true := by
  induction s with
  | nil => rfl
  | cons c s ih =>
    have : escList (c :: s) = escChar c ++ escList s := by simp [escList]
    rw [this, escChar_scan, ih]

theorem lookupExp_error_not_retried (resp : EndpointResp) :
    ∀ e, lookupExp resp = .error e → retriedExc e = false := by
  intro e h
  unfold lookupExp at h
  repeat' split at h
  all_goals first
    | (injection h with h2; subst h2; rfl)
    | injection h

/-! ## The claims -/

/-- C2. SSML escaping: `get_ssml` renders the text node through
`html.escape`, and the escaped text node contains no unescaped `<`, `&` or
`"`: no raw `<` or `"` at all, and every `&` starts one of the escape
entities. -/
theorem C2_ssml_escaping (text voice_name rate pitch style : String) :
    get_ssml text voice_name rate pitch style =
        ssmlPart0 ++ voice_name ++ ssmlPart1 ++ style ++ ssmlPart2 ++ rate ++
          ssmlPart3 ++ pitch ++ ssmlPart4 ++ htmlEscape text ++ ssmlPart5 ∧
      noUnescaped (htmlEscape text).data = true :=
  ⟨rfl, noUnescaped_escList text.data⟩

/-- C10. Escaping covers only the text parameter: `voice_name`, `style`,
`rate` and `pitch` are interpolated verbatim into attribute positions of
the document (only `text` passes through `html.escape`), so any character
of those parameters — in particular `"`, `<` or `&` — appears as-is in the
returned XML string. -/
theorem C10_attribute_params_verbatim (t v r p st : String) :
    ((get_ssml t v r p st).data =
        ssmlPart0.data ++ v.data ++ ssmlPart1.data ++ st.data ++ ssmlPart2.data ++
          r.data ++ ssmlPart3.data ++ p.data ++ ssmlPart4.data ++ escList t.data ++
          ssmlPart5.data) ∧
      (∀ c : Char, c ∈ v.data ∨ c ∈ r.data ∨ c ∈ p.data ∨ c ∈ st.data →
        c ∈ (get_ssml t v r p st).data) := by
  constructor
  · simp [get_ssml, String.data_append, htmlEscape, escList]
  · intro c hc
    simp only [get_ssml, String.data_append, htmlEscape, List.mem_append]
    rcases hc with h | h | h | h <;> tauto

/-- C10 witness: a double quote, a `<` and an `&` inside `voice_name`
(resp. `rate`, `style`) appear in the rendered document. -/
theorem C10_attribute_params_verbatim_witness :
    Char.ofNat 34 ∈ (get_ssml "x" "a\"b" "1<2" "0" "ge&n").data ∧
      Char.ofNat 60 ∈ (get_ssml "x" "a\"b" "1<2" "0" "ge&n").data ∧
      Char.ofNat 38 ∈ (get_ssml "x" "a\"b" "1<2" "0" "ge&n").data :=
  ⟨(C10_attribute_params_verbatim "x" "a\"b" "1<2" "0" "ge&n").2 (Char.ofNat 34)
      (Or.inl (by decide)),
    (C10_attribute_params_verbatim "x" "a\"b" "1<2" "0" "ge&n").2 (Char.ofNat 60)
      (Or.inr (Or.inl (by decide))),
    (C10_attribute_params_verbatim "x" "a\"b" "1<2" "0" "ge&n").2 (Char.ofNat 38)
      (Or.inr (Or.inr (Or.inr (by decide))))⟩

/-- C1. TokenCache freshness: in the token-handling step of `get_voice`
(with any nonnegative wall clock), no token-endpoint request is made
exactly when a cached expiry exists and `now ≤ expires_at - 60`; in that
case the cached state is returned untouched. A credential expiring in 30
seconds triggers a refresh, one expiring in 120 seconds is served from
cache. -/
theorem getVoiceTokenStep_made (st : TtsState) (now : Int)
    (fetch : Except PyExc EndpointResp) :
    (getVoiceTokenStep st now fetch).2.1 = needRefresh st.expired_at now := by
  by_cases h : needRefresh st.expired_at now <;> simp [getVoiceTokenStep, h]

theorem needRefresh_false_iff (v : Option Int) (now : Int) (hnow : 0 ≤ now) :
    needRefresh v now = false ↔ ∃ x, v = some x ∧ now ≤ x - 60 := by
  cases v with
  | none => simp [needRefresh]
  | some x => simp [needRefresh]; omega

theorem C1_token_cache_freshness (st : TtsState) (now : Int)
    (fetch : Except PyExc EndpointResp) (hnow : 0 ≤ now) :
    ((getVoiceTokenStep st now fetch).2.1 = false ↔
        ∃ v, st.expired_at = some v ∧ now ≤ v - 60) ∧
      ((getVoiceTokenStep st now fetch).2.1 = false →
        getVoiceTokenStep st now fetch = (st, false, .ok ())) ∧
      needRefresh (some (now + 30)) now = true ∧
      needRefresh (some (now + 120)) now = false := by
  refine ⟨?_, ?_, ?_, ?_⟩
  · rw [getVoiceTokenStep_made]
    exact needRefresh_false_iff _ _ hnow
  · intro h
    rw [getVoiceTokenStep_made] at h
    simp [getVoiceTokenStep, h]
  · simp [needRefresh]; omega
  · simp [needRefresh]; omega

/-- C1 witness: at `now = 1000` with a cached expiry `2000` the step makes
no request and leaves the state unchanged. -/
theorem C1_token_cache_freshness_witness :
    (0 : Int) ≤ 1000 ∧
      getVoiceTokenStep ⟨some ⟨some "tok", some "eastus"⟩, some 2000⟩ 1000
          (.error .timeout) =
        (⟨some ⟨some "tok", some "eastus"⟩, some 2000⟩, false, .ok ()) :=
  ⟨by decide,
    (C1_token_cache_freshness ⟨some ⟨some "tok", some "eastus"⟩, some 2000⟩ 1000
      (.error .timeout) (by decide)).2.1 (by decide)⟩

/-- C8. Session recycling: with the constructed 600-second interval, an
acquisition more than 600 seconds after the session's creation closes it
and hands out a fresh session stamped with the current time; otherwise the
manager is untouched and the current session is handed out; in every case
the handed-out session's age at acquisition is at most 600 seconds. -/
theorem C8_session_recycling (st : SessionState) (now : Int) (freshId : Nat)
    (hint : st.recreateInterval = 600) :
    (now - st.lastCreated > 600 →
      acquireSession st now freshId =
        ({ st with sessionId := freshId, lastCreated := now }, freshId)) ∧
      (now - st.lastCreated ≤ 600 → acquireSession st now freshId = (st, st.sessionId)) ∧
      now - (acquireSession st now freshId).1.lastCreated ≤ 600 ∧
      (acquireSession st now freshId).2 = (acquireSession st now freshId).1.sessionId := by
  by_cases h : now - st.lastCreated > 600 <;>
    refine ⟨fun h1 => ?_, fun h2 => ?_, ?_, ?_⟩ <;>
    simp [acquireSession, hint, h] <;> omega

/-- C8 witness: at age 1000 s the session is recycled; at age 10 s it is
reused. -/
theorem C8_session_recycling_witness :
    acquireSession ⟨1, 0, 600⟩ 1000 2 = (⟨2, 1000, 600⟩, 2) ∧
      acquireSession ⟨1, 990, 600⟩ 1000 2 = (⟨1, 990, 600⟩, 1) :=
  ⟨(C8_session_recycling ⟨1, 0, 600⟩ 1000 2 rfl).1 (by decide),
    (C8_session_recycling ⟨1, 990, 600⟩ 1000 2 rfl).2.1 (by decide)⟩

/-- C9. Content-type selection: the declared content type is the stated
pure function of `output_format` — `mp3` wins, then `ogg`, then `wav`,
else the generic binary type — and the default output format yields
`audio/mpeg`. -/
theorem C9_content_type (fmt : String) :
    mediaType DEFAULT_OUTPUT_FORMAT = "audio/mpeg" ∧
      (strContains fmt "mp3" = true → mediaType fmt = "audio/mpeg") ∧
      (strContains fmt "mp3" = false → strContains fmt "ogg" = true →
        mediaType fmt = "audio/ogg") ∧
      (strContains fmt "mp3" = false → strContains fmt "ogg" = false →
        strContains fmt "wav" = true → mediaType fmt = "audio/wav") ∧
      (strContains fmt "mp3" = false → strContains fmt "ogg" = false →
        strContains fmt "wav" = false → mediaType fmt = "application/octet-stream") := by
  refine ⟨by decide, ?_, ?_, ?_, ?_⟩ <;> intros <;> simp [mediaType, *]

/-- C9 witness: concrete formats hit each branch. -/
theorem C9_content_type_witness :
    mediaType "riff-24khz-16bit-mono-pcm-wav" = "audio/wav" ∧
      mediaType "webm-24khz-16bit-mono-opus" = "application/octet-stream" :=
  ⟨(C9_content_type "riff-24khz-16bit-mono-pcm-wav").2.2.2.1 (by decide) (by decide)
      (by decide),
    (C9_content_type "webm-24khz-16bit-mono-opus").2.2.2.2 (by decide) (by decide)
      (by decide)⟩

/-- C3 (amended). Signer algorithm and output shape, for every URL in
which `://` occurs exactly once (so the split's second piece is exactly
the URL with its scheme and `://` removed): `sign` produces
`"<app-id>::<base64-mac>::<date>::<nonce>"` with the HMAC-SHA256 MAC
keyed by the base64-decoded fixed constant over the UTF-8 encoding of the
lowercased concatenation described by the spec. For a URL with a second
`://` the code signs only the segment between the first two separators,
and for a URL with none it raises — see the counterexample. -/
theorem C3_sign_output_shape (url nonce date : String)
    (h : (pySplit url "://").length = 2) :
    sign url nonce date = some (specSign url nonce date) := by
  rcases hl : pySplit url "://" with _ | ⟨a, _ | ⟨b, _ | ⟨c, l⟩⟩⟩ <;>
    rw [hl] at h <;> simp at h
  simp [sign, specSign, afterScheme, hl, joinSep]

/-- C3 witness: the constant token-endpoint URL contains `://` exactly
once, and `sign` on it matches the spec's formula. -/
theorem C3_sign_output_shape_witness :
    (pySplit ENDPOINT_URL "://").length = 2 ∧
      sign ENDPOINT_URL "0123456789abcdef0123456789abcdef" "tue, 03 jun 2025 10:15:00gmt" =
        some (specSign ENDPOINT_URL "0123456789abcdef0123456789abcdef"
          "tue, 03 jun 2025 10:15:00gmt") :=
  ⟨by decide,
    C3_sign_output_shape ENDPOINT_URL "0123456789abcdef0123456789abcdef"
      "tue, 03 jun 2025 10:15:00gmt" (by decide)⟩

/-- C3 counterexample: for the URL `https://a://b` (where `://` occurs
twice) the claim's formula disagrees with `sign`: the code percent-encodes
only `a`, the segment between the first two separators, not `a://b`, the
URL with its scheme and `://` removed, and the resulting MACs differ. -/
theorem C3_sign_output_shape_counterexample :
    sign "https://a://b" "0123456789abcdef0123456789abcdef" "tue, 03 jun 2025 10:15:00gmt" ≠
      some (specSign "https://a://b" "0123456789abcdef0123456789abcdef"
        "tue, 03 jun 2025 10:15:00gmt") := by
  decide

/-- C4 (amended). Credential replacement is not atomic: when the token
fetch itself fails no global is touched, and a refresh whose `exp` value
admits the subtraction (an int, float or bool) replaces token/region and
expiry together; but once the response is obtained the mutation is two
separate assignments — a parse failure before the `['exp']` lookup
completes leaves the new `endpoint` paired with the old `expired_at`,
and a lookup yielding a non-numeric value overwrites `expired_at` with
that value before the `TypeError` on the next line. In neither failure
mode is the previously cached credential left entirely unchanged. -/
theorem C4_credential_replacement (st : RefreshState) (fetch : Except PyExc EndpointResp) :
    (∀ e, fetch = .error e → refreshFlow st fetch = (st, .error e)) ∧
      (∀ resp v, fetch = .ok resp → lookupExp resp = .ok v → subtractOk v = true →
        refreshFlow st fetch = (⟨some resp, some v⟩, .ok ())) ∧
      (∀ resp e, fetch = .ok resp → lookupExp resp = .error e →
        refreshFlow st fetch = (⟨some resp, st.expired_at⟩, .error e)) ∧
      (∀ resp v, fetch = .ok resp → lookupExp resp = .ok v → subtractOk v = false →
        refreshFlow st fetch = (⟨some resp, some v⟩, .error .typeError)) := by
  refine ⟨fun e he => ?_, fun resp v hf hp hs => ?_, fun resp e hf hp => ?_,
    fun resp v hf hp hs => ?_⟩
  · subst he; simp [refreshFlow]
  · subst hf; simp [refreshFlow, applyRefresh, hp, hs]
  · subst hf; simp [refreshFlow, applyRefresh, hp]
  · subst hf; simp [refreshFlow, applyRefresh, hp, hs]

/-- C4 witness: a payload with integer `exp` replaces both globals
together, and — as in Python, where `json.loads` accepts floats and
`1.5 - now` is valid — a payload with `exp = 1.5` also refreshes
successfully, storing the float expiry. -/
theorem C4_credential_replacement_witness :
    lookupExp ⟨some "h.eyJleHAiOjEyMzR9.s", some "eastus"⟩ = .ok (.jNum 1234) ∧
      refreshFlow ⟨none, none⟩ (.ok ⟨some "h.eyJleHAiOjEyMzR9.s", some "eastus"⟩) =
        (⟨some ⟨some "h.eyJleHAiOjEyMzR9.s", some "eastus"⟩, some (.jNum 1234)⟩, .ok ()) ∧
      lookupExp ⟨some "h.eyJleHAiOjEuNX0.s", some "eastus"⟩ = .ok (.jFlt 15 (-1)) ∧
      refreshFlow ⟨none, none⟩ (.ok ⟨some "h.eyJleHAiOjEuNX0.s", some "eastus"⟩) =
        (⟨some ⟨some "h.eyJleHAiOjEuNX0.s", some "eastus"⟩, some (.jFlt 15 (-1))⟩, .ok ()) :=
  ⟨rfl,
    (C4_credential_replacement ⟨none, none⟩
      (.ok ⟨some "h.eyJleHAiOjEyMzR9.s", some "eastus"⟩)).2.1
      ⟨some "h.eyJleHAiOjEyMzR9.s", some "eastus"⟩ (.jNum 1234) rfl rfl rfl,
    rfl,
    (C4_credential_replacement ⟨none, none⟩
      (.ok ⟨some "h.eyJleHAiOjEuNX0.s", some "eastus"⟩)).2.1
      ⟨some "h.eyJleHAiOjEuNX0.s", some "eastus"⟩ (.jFlt 15 (-1)) rfl rfl rfl⟩

/-- C4 counterexample, refuting "the previously cached credential state
is left entirely unchanged" in both failure shapes: a token with no
second dot-segment fails with `IndexError` after `endpoint` was already
replaced (old expiry kept), and a payload with `exp = "abc"` fails with
`TypeError` after `expired_at` was additionally overwritten with the
string `"abc"`. -/
theorem C4_credential_replacement_counterexample :
    (applyRefresh ⟨some ⟨some "oldtok", some "oldregion"⟩, some (.jNum 999999)⟩
        ⟨some "nodots", some "westus"⟩).2 = .error .indexError ∧
      (applyRefresh ⟨some ⟨some "oldtok", some "oldregion"⟩, some (.jNum 999999)⟩
          ⟨some "nodots", some "westus"⟩).1.endpoint = some ⟨some "nodots", some "westus"⟩ ∧
      (some ⟨some "nodots", some "westus"⟩ : Option EndpointResp) ≠
        some ⟨some "oldtok", some "oldregion"⟩ ∧
      (applyRefresh ⟨some ⟨some "oldtok", some "oldregion"⟩, some (.jNum 999999)⟩
          ⟨some "nodots", some "westus"⟩).1.expired_at = some (.jNum 999999) ∧
      (applyRefresh ⟨some ⟨some "oldtok", some "oldregion"⟩, some (.jNum 999999)⟩
          ⟨some "h.eyJleHAiOiJhYmMifQ.s", some "westus"⟩).2 = .error .typeError ∧
      (applyRefresh ⟨some ⟨some "oldtok", some "oldregion"⟩, some (.jNum 999999)⟩
          ⟨some "h.eyJleHAiOiJhYmMifQ.s", some "westus"⟩).1.expired_at =
        some (.jStr "abc") :=
  ⟨rfl, rfl, by decide, rfl, rfl, rfl⟩

/-- C5. Token parse failure handling: a response without `t` fails with
`KeyError`; every parse failure raises an exception outside the retried
set of both tenacity tiers (which retry only `SSLError`,
`ConnectionError`, `Timeout`), so the failing refresh propagates out of
`refreshFlow` and a tenacity-wrapped call raising it stops after exactly
one attempt with no retry. -/
theorem C5_parse_failure_not_retried (resp : EndpointResp) :
    (resp.t = none → parseExp resp = .error .keyError) ∧
      (∀ e, parseExp resp = .error e → retriedExc e = false) ∧
      (∀ st e, parseExp resp = .error e → (refreshFlow st (.ok resp)).2 = .error e) ∧
      (∀ (e : PyExc) (out : Nat → Except PyExc Unit), retriedExc e = false →
        out 1 = .error e →
        tenacityRun retriedExc waitGetVoice 3 out = ⟨.error e, 1, []⟩) := by
  refine ⟨fun ht => ?_, fun e h => ?_, fun st e h => ?_, fun e out he hout => ?_⟩
  · simp [parseExp, lookupExp, ht]
  · unfold parseExp at h
    rcases hl : lookupExp resp with e2 | v
    · rw [hl] at h
      simp at h
      subst h
      exact lookupExp_error_not_retried resp _ hl
    · rw [hl] at h
      rcases hsv : subtractOk v with _ | _
      · simp [hsv] at h
        subst h
        rfl
      · simp [hsv] at h
  · unfold parseExp at h
    rcases hl : lookupExp resp with e2 | v
    · rw [hl] at h
      simp at h
      subst h
      simp [refreshFlow, applyRefresh, hl]
    · rw [hl] at h
      rcases hsv : subtractOk v with _ | _
      · simp [hsv] at h
        subst h
        simp [refreshFlow, applyRefresh, hl, hsv]
      · simp [hsv] at h
  · simp [tenacityRun, tenacityGo, hout, he]

/-- C5 witness: a response with `t` absent fails with `KeyError`, which no
tier retries: one attempt, no waits. -/
theorem C5_parse_failure_not_retried_witness :
    parseExp ⟨none, some "eastus"⟩ = .error .keyError ∧
      retriedExc .keyError = false ∧
      (refreshFlow ⟨none, none⟩ (.ok ⟨none, some "eastus"⟩)).2 = .error .keyError ∧
      tenacityRun retriedExc waitGetVoice 3 (fun _ => (.error .keyError : Except PyExc Unit)) =
        ⟨.error .keyError, 1, []⟩ :=
  ⟨(C5_parse_failure_not_retried ⟨none, some "eastus"⟩).1 rfl,
    by decide,
    (C5_parse_failure_not_retried ⟨none, some "eastus"⟩).2.2.1 ⟨none, none⟩ .keyError
      rfl,
    (C5_parse_failure_not_retried ⟨none, some "eastus"⟩).2.2.2 .keyError _ (by decide) rfl⟩

/-- C6 (amended). 4xx/5xx responses are terminal: a synthesis response
with status 400–599 makes `raise_for_status` raise `HTTPError`, which is
outside the outer tier's retried exception set, so the tenacity-wrapped
call stops after exactly one attempt (zero retries) and `tts_api`
surfaces it through its dedicated first handler as a 502 — the
`RemoteError` of the design. (Statuses outside 400–599, e.g. a 304, are
not raised on and are returned as success: see the counterexample for why
the claim's "non-2xx" does not hold verbatim.) -/
theorem C6_status_errors_terminal (status : Nat) (h4 : 400 ≤ status) (h5 : status ≤ 599)
    (content : List Nat) (out : Nat → Except PyExc (List Nat))
    (hout : out 1 = synthAttempt status content) :
    tenacityRun retriedExc waitGetVoice 3 out = ⟨.error .httpError, 1, []⟩ ∧
      ttsHandler .httpError = .remoteErr ∧ ttsApiStatusOf .httpError = 502 := by
  have hatt : synthAttempt status content = (.error .httpError : Except PyExc (List Nat)) := by
    simp [synthAttempt, raiseForStatus, h4, h5]
  refine ⟨?_, rfl, rfl⟩
  rw [hatt] at hout
  simp [tenacityRun, tenacityGo, hout, retriedExc]

/-- C6 witness: a 401 synthesis response yields `HTTPError` after one
attempt and is mapped by `tts_api` to the remote-error handler. -/
theorem C6_status_errors_terminal_witness :
    tenacityRun retriedExc waitGetVoice 3 (fun _ => synthAttempt 401 ([] : List Nat)) =
        ⟨.error .httpError, 1, []⟩ ∧
      ttsHandler .httpError = .remoteErr ∧ ttsApiStatusOf .httpError = 502 :=
  C6_status_errors_terminal 401 (by decide) (by decide) [] _ rfl

/-- C6 counterexample: 304 is not a 2xx status, yet `raise_for_status`
does not raise on it — the response is returned as success after one
attempt, not surfaced as a `RemoteError`; the claim's "for every non-2xx
status" fails outside 400–599. -/
theorem C6_status_errors_terminal_counterexample :
    ¬(200 ≤ 304 ∧ 304 ≤ 299) ∧
      synthAttempt 304 [1] = (.ok [1] : Except PyExc (List Nat)) ∧
      tenacityRun retriedExc waitGetVoice 3 (fun _ => synthAttempt 304 [1]) =
        ⟨.ok [1], 1, []⟩ := by
  decide

/-- C7 (amended). Outer retry policy on the synthesis call: only
network/SSL/timeout exceptions are retried, for at most 3 attempts, with
waits after the first and second failed attempts of 2 s and 4 s (the
`wait_exponential(multiplier=1, min=2, max=5)` values, each within the
2–5 s clamp). Two consecutive connection failures followed by a success
give one successful return on the third attempt (two failed attempts);
three consecutive failures exhaust the cap and the connection error is
reraised — surfacing as the network failure handler (`NetworkError`) —
rather than retrying indefinitely. -/
theorem C7_outer_retry_policy (v : List Nat) (out : Nat → Except PyExc (List Nat))
    (h1 : out 1 = .error .connectionError) (h2 : out 2 = .error .connectionError) :
    (out 3 = .ok v →
      tenacityRun retriedExc waitGetVoice 3 out = ⟨.ok v, 3, [2, 4]⟩) ∧
      (out 3 = .error .connectionError →
        tenacityRun retriedExc waitGetVoice 3 out = ⟨.error .connectionError, 3, [2, 4]⟩) ∧
      waitGetVoice 1 = 2 ∧ waitGetVoice 2 = 4 ∧
      (∀ k, 1 ≤ k → 2 ≤ waitGetVoice k ∧ waitGetVoice k ≤ 5) ∧
      retriedExc .connectionError = true ∧ ttsHandler .connectionError = .netErr := by
  refine ⟨fun h3 => ?_, fun h3 => ?_, rfl, rfl, fun k hk => ?_, rfl, rfl⟩
  · simp [tenacityRun, tenacityGo, h1, h2, h3, retriedExc, waitGetVoice, waitExponential]
  · simp [tenacityRun, tenacityGo, h1, h2, h3, retriedExc, waitGetVoice, waitExponential]
  · unfold waitGetVoice waitExponential
    constructor
    · exact Nat.le_max_left _ _
    · have h2k : 2 ≤ 2 ^ k := by
        calc 2 = 2 ^ 1 := rfl
        _ ≤ 2 ^ k := Nat.pow_le_pow_right (by omega) hk
      omega

/-- C7 witness: two connection failures then a success give the success on
the third attempt with waits 2 s and 4 s; three failures surface the
connection error after the 3-attempt cap. -/
theorem C7_outer_retry_policy_witness :
    tenacityRun retriedExc waitGetVoice 3
        (fun k => if k ≤ 2 then .error .connectionError else .ok [9]) = ⟨.ok [9], 3, [2, 4]⟩ ∧
      tenacityRun retriedExc waitGetVoice 3
        (fun _ => (.error .connectionError : Except PyExc (List Nat))) =
        ⟨.error .connectionError, 3, [2, 4]⟩ :=
  ⟨(C7_outer_retry_policy [9] (fun k => if k ≤ 2 then .error .connectionError else .ok [9])
      (by decide) (by decide)).1 (by decide),
    (C7_outer_retry_policy [9] (fun _ => .error .connectionError)
      (by decide) (by decide)).2.1 (by decide)⟩

/-- C7 counterexample: with three consecutive connection failures and a
success available on the fourth attempt, the call does not return
success — `stop_after_attempt(3)` reraises the error on the third
attempt, so "3 failed attempts then one successful return" is impossible.
-/
theorem C7_outer_retry_policy_counterexample :
    tenacityRun retriedExc waitGetVoice 3
        (fun k => if k ≤ 3 then .error .connectionError else .ok [7]) =
        ⟨.error .connectionError, 3, [2, 4]⟩ ∧
      (tenacityRun retriedExc waitGetVoice 3
        (fun k => if k ≤ 3 then .error .connectionError else .ok [7])).result ≠ .ok [7] := by
  decide

end Tts
